import Mathlib

set_option maxRecDepth 8000

/-!
Shallow embedding of the frostvakt pipeline (Dahlmansro/frostvakt).

Numbers that the Python code represents as floats are modelled as rationals
(`ℚ`); nullable values (pandas `NaN`/`None`) as `Option`.  Each definition
cites the source location it embeds.
-/

namespace Frostvakt

/-- Marker recording which rule of `calculate_advanced_frost_risk` produced
the result; it stands for the distinct `reason` entry of the details dict
returned by each branch (src/advanced_frost_analyzer.py lines 76-150). -/
inductive Branch where
  | missingData
  | daytime
  | freezing
  | cloudRule
  | humidityRule
  | noRisk
  deriving DecidableEq, Repr

/-- Result of one classification: the `(risk_level_text, risk_level_numeric)`
pair returned by the Python function, plus the branch marker. -/
structure RiskResult where
  level : String
  numeric : Nat
  branch : Branch
  deriving DecidableEq, Repr

/-- Embeds `calculate_cloud_impact_factor` (src/advanced_frost_analyzer.py
lines 21-44): `pd.isna` → 1.0, `≤20` → 1.5, `≤50` → 1.2, `≤80` → 1.0,
else 0.7. -/
def calculate_cloud_impact_factor (cloud_cover : Option ℚ) : ℚ :=
  match cloud_cover with
  | none => 1
  | some c =>
    if c ≤ 20 then 3/2
    else if c ≤ 50 then 6/5
    else if c ≤ 80 then 1
    else 7/10

/-- Embeds the threshold selection of `calculate_advanced_frost_risk`
(src/advanced_frost_analyzer.py lines 104-116): given the cloud factor,
yields `(temp_limit, risk_level, risk_numeric)`. -/
def cloudParams (cloud_factor : ℚ) : ℚ × String × Nat :=
  if 7/5 ≤ cloud_factor then (3, "låg", 1)
  else if 11/10 ≤ cloud_factor then (2, "medel", 2)
  else (1, "medel", 2)

/-- Embeds the guard `hour_of_day is not None and 8 <= hour_of_day <= 17`
(src/advanced_frost_analyzer.py line 80). -/
def daytimeHour (hour_of_day : Option ℤ) : Bool :=
  match hour_of_day with
  | none => false
  | some h => decide (8 ≤ h ∧ h ≤ 17)

/-- Embeds the humidity condition `not pd.isna(humidity) and temperature <= 2
and wind_speed < 3 and humidity > 85` (src/advanced_frost_analyzer.py
line 131). -/
def humidityTrigger (t w : ℚ) (humidity : Option ℚ) : Bool :=
  match humidity with
  | none => false
  | some hu => decide (t ≤ 2 ∧ w < 3 ∧ 85 < hu)

/-- Embeds `calculate_advanced_frost_risk` (src/advanced_frost_analyzer.py
lines 47-150).  The Python code takes floats that may be NaN; here missing
temperature/wind/cloud/humidity are `none`.  The returned strings are the
source's Swedish level names ("okänd"/"ingen"/"låg"/"medel"/"hög", i.e.
unknown/none/low/medium/high). -/
def calculate_advanced_frost_risk (temperature wind_speed cloud_cover humidity : Option ℚ)
    (hour_of_day : Option ℤ) : RiskResult :=
  match temperature, wind_speed with
  | none, _ => ⟨"okänd", 0, Branch.missingData⟩
  | some _, none => ⟨"okänd", 0, Branch.missingData⟩
  | some t, some w =>
    if daytimeHour hour_of_day ∧ 0 < t then ⟨"ingen", 0, Branch.daytime⟩
    else if t ≤ 0 then ⟨"hög", 3, Branch.freezing⟩
    else
      let p := cloudParams (calculate_cloud_impact_factor cloud_cover)
      if t ≤ p.1 ∧ w < 4 then ⟨p.2.1, p.2.2, Branch.cloudRule⟩
      else if humidityTrigger t w humidity then ⟨"medel", 2, Branch.humidityRule⟩
      else ⟨"ingen", 0, Branch.noRisk⟩

/-- Timestamp at hour resolution, structured so that `.hour` extraction
(src/advanced_frost_analyzer.py lines 195-200) is direct. -/
structure VTime where
  day : ℤ
  hour : ℤ
  deriving DecidableEq, Repr

/-- One input row of the weather DataFrame handed to the batch analyzer;
per-row `NaN` values are `none`. -/
structure WRow where
  valid_time : Option VTime
  temperature_2m : Option ℚ
  relative_humidity_2m : Option ℚ
  wind_speed_10m : Option ℚ
  cloud_cover : Option ℚ
  deriving DecidableEq, Repr

/-- The weather DataFrame: column presence flags (pandas `col in df.columns`)
plus the row list. -/
structure WFrame where
  hasValidTime : Bool
  hasTemperature : Bool
  hasWind : Bool
  hasCloud : Bool
  hasHumidity : Bool
  rows : List WRow
  deriving DecidableEq, Repr

/-- Output of the batch analyzer: the (possibly cloud-defaulted) base frame,
whether the frost columns were added, and the per-row frost results (the
`frost_risk_level` / `frost_risk_numeric` / details columns; `frost_warning`
is `numeric > 0` per line 217). -/
structure AFrame where
  base : WFrame
  frostAdded : Bool
  frost : List RiskResult
  deriving DecidableEq, Repr

/-- Per-row classification call of `analyze_dataframe_advanced`
(src/advanced_frost_analyzer.py lines 190-211): humidity is passed only when
the column is usable, the hour only when `valid_time` is present. -/
def analyzeRow (useHumidity hasValidTime hasCloud : Bool) (r : WRow) : RiskResult :=
  calculate_advanced_frost_risk r.temperature_2m r.wind_speed_10m
    (if hasCloud then r.cloud_cover else some 50)
    (if useHumidity then r.relative_humidity_2m else none)
    (if hasValidTime then r.valid_time.map VTime.hour else none)

/-- Embeds `analyze_dataframe_advanced` (src/advanced_frost_analyzer.py
lines 153-225): empty input returned unchanged; missing required columns
(`temperature_2m`, `wind_speed_10m`) returned unchanged; otherwise
`cloud_cover` defaulted to 50.0 when the column is absent, humidity used only
when its column exists and is not entirely absent, and every row classified. -/
def analyze_dataframe_advanced (df : WFrame) : AFrame :=
  if df.rows.isEmpty then ⟨df, false, []⟩
  else if ¬(df.hasTemperature = true ∧ df.hasWind = true) then ⟨df, false, []⟩
  else
    let base := if df.hasCloud then df
      else { df with hasCloud := true,
                     rows := df.rows.map (fun r => { r with cloud_cover := some 50 }) }
    let useHumidity := df.hasHumidity && df.rows.any (fun r => r.relative_humidity_2m.isSome)
    ⟨base, true, base.rows.map (analyzeRow useHumidity df.hasValidTime df.hasCloud)⟩

/-! Persistence layer (src/main.py lines 280-359).  Timestamps are modelled
as integers; a row carries the fields the dedup/write logic inspects. -/

/-- One record written to `weather_hourly` / `frost_warnings`. -/
structure PRow where
  valid_time : ℤ
  dataset : String
  forecast_issue_time : Option ℤ
  frost_risk_numeric : Nat
  frost_warning : Bool
  deriving DecidableEq, Repr

/-- A DataFrame handed to the load functions: whether the
`forecast_issue_time` column is present, plus the rows. -/
structure PTable where
  hasIssue : Bool
  rows : List PRow
  deriving DecidableEq, Repr

/-- Ordering used by the latest-issue-wins sort: `NaT` (`none`) sorts before
every concrete issue time (pandas places NaT last under the descending sort of
src/main.py line 292, so it never wins against a concrete time). -/
def issueLe (a b : Option ℤ) : Bool :=
  match a, b with
  | none, _ => true
  | some _, none => false
  | some x, some y => decide (x ≤ y)

/-- First row of a sorted-descending group: the fold keeps the earlier row on
ties and replaces it on a strictly more recent issue time, which is the row
`groupby('valid_time').first()` retains after the sort of src/main.py
lines 292-293. -/
def bestRow (r : PRow) (rs : List PRow) : PRow :=
  rs.foldl (fun b s => if issueLe s.forecast_issue_time b.forecast_issue_time then b else s) r

/-- The surviving row for one `valid_time` key. -/
def groupBest (rows : List PRow) (k : ℤ) : Option PRow :=
  match rows.filter (fun r => decide (r.valid_time = k)) with
  | [] => none
  | r :: rs => some (bestRow r rs)

/-- Embeds the `sort_values(['valid_time','forecast_issue_datetime'],
ascending=[True,False]).groupby('valid_time').first()` deduplication of
src/main.py lines 291-294 and 332-334: one surviving row per distinct
`valid_time`, the one with the most recent `forecast_issue_time`. -/
def dedupLatest (rows : List PRow) : List PRow :=
  ((rows.map PRow.valid_time).dedup).filterMap (groupBest rows)

/-- Embeds `load_weather_data` (src/main.py lines 280-310), returning the list
of records the insert loop writes (the Python function returns their count).
The dedup branch is taken when the `forecast_issue_time` column exists and is
not entirely null (line 290). -/
def load_weather_data (t : PTable) : List PRow :=
  if t.rows.isEmpty then []
  else if t.hasIssue && t.rows.any (fun r => r.forecast_issue_time.isSome) then
    dedupLatest t.rows
  else t.rows

/-- Embeds `load_frost_warnings` (src/main.py lines 313-359): filter to
`frost_warning == True`, then (whenever the issue column exists, line 331)
the same latest-issue-wins dedup; returns the written records. -/
def load_frost_warnings (t : PTable) : List PRow :=
  if t.rows.isEmpty then []
  else
    let w := t.rows.filter (fun r => r.frost_warning)
    if w.isEmpty then []
    else if t.hasIssue then dedupLatest w
    else w

/-! Forecast transformation (src/main.py lines 151-192). -/

/-- The `hourly` object of the provider JSON: the `time` array plus the six
requested variables, each possibly omitted by the provider; per-entry nulls
are `none`.  Timestamps are modelled as integer hours. -/
structure HourlyData where
  time : List ℤ
  temperature_2m : Option (List (Option ℚ))
  relative_humidity_2m : Option (List (Option ℚ))
  precipitation : Option (List (Option ℚ))
  wind_speed_10m : Option (List (Option ℚ))
  precipitation_probability : Option (List (Option ℚ))
  cloud_cover : Option (List (Option ℚ))
  deriving Repr

/-- The provider payload: `json_data.get("hourly", {})`. -/
structure ApiJson where
  hourly : Option HourlyData
  deriving Repr

/-- The empty `hourly` default `{}` of src/main.py line 159. -/
def emptyHourly : HourlyData := ⟨[], none, none, none, none, none, none⟩

/-- Value of column `col` at row `i`: `hourly.get(col, [None]*len(df))`
(src/main.py line 169). -/
def colVal (col : Option (List (Option ℚ))) (i : Nat) : Option ℚ :=
  match col with
  | none => none
  | some vs => vs.getD i none

/-- One output row of `transform_hourly_json`. -/
structure TRow where
  valid_time : ℤ
  temperature_2m : Option ℚ
  relative_humidity_2m : Option ℚ
  precipitation : Option ℚ
  wind_speed_10m : Option ℚ
  precipitation_probability : Option ℚ
  cloud_cover : Option ℚ
  dataset : String
  forecast_issue_time : Option ℚ
  horizon_hours : Option ℚ
  run_id : String
  deriving Repr

/-- Output DataFrame with its column list (the final column selection of
src/main.py lines 188-192 fixes the order). -/
structure TFrame where
  columns : List String
  rows : List TRow
  deriving Repr

/-- The fixed output column order of src/main.py lines 188-192. -/
def wantedColumns : List String :=
  ["valid_time", "temperature_2m", "relative_humidity_2m", "precipitation",
   "wind_speed_10m", "precipitation_probability", "cloud_cover", "dataset",
   "forecast_issue_time", "horizon_hours", "run_id"]

/-- Rounding to 1 decimal (`.round(1)`, src/main.py line 181). -/
def round1 (x : ℚ) : ℚ := (round (10 * x) : ℤ) / 10

/-- A placeholder row used only as the default of list lookups in theorem
statements. -/
def dummyTRow : TRow :=
  ⟨0, none, none, none, none, none, none, "", none, none, ""⟩

/-- Embeds `transform_hourly_json` (src/main.py lines 151-192): empty `time`
array → empty DataFrame; otherwise one row per timestamp, wind divided by 3.6
(km/h → m/s), horizon hours only when an issue time is given. -/
def transform_hourly_json (j : ApiJson) (dataset : String)
    (forecast_issue_time : Option ℚ) (run_id : String) : TFrame :=
  let hourly := j.hourly.getD emptyHourly
  let times := hourly.time
  if times.isEmpty then ⟨[], []⟩
  else
    ⟨wantedColumns,
     (List.range times.length).map (fun i =>
       let vt := times.getD i 0
       { valid_time := vt
         temperature_2m := colVal hourly.temperature_2m i
         relative_humidity_2m := colVal hourly.relative_humidity_2m i
         precipitation := colVal hourly.precipitation i
         wind_speed_10m := (colVal hourly.wind_speed_10m i).map (fun v => v / (18/5))
         precipitation_probability := colVal hourly.precipitation_probability i
         cloud_cover := colVal hourly.cloud_cover i
         dataset := dataset
         forecast_issue_time := forecast_issue_time
         horizon_hours := forecast_issue_time.map (fun fit => round1 ((vt : ℚ) - fit))
         run_id := run_id })⟩

/-- A sample provider payload with a single timestamp and a 7.2 km/h wind
reading, used to evaluate the transformation theorems. -/
def sampleJson : ApiJson :=
  ⟨some ⟨[0], none, none, none, some [some (36/5)], none, none⟩⟩

/-! Orchestrator exit logic (src/main.py lines 518-524). -/

/-- Character-list prefix test. -/
def isPrefixCh : List Char → List Char → Bool
  | [], _ => true
  | _ :: _, [] => false
  | p :: ps, c :: cs => (p == c) && isPrefixCh ps cs

/-- Character-list substring test (`pat in s` of Python). -/
def isSubCh (p : List Char) : List Char → Bool
  | [] => p.isEmpty
  | c :: cs => isPrefixCh p (c :: cs) || isSubCh p cs

/-- ASCII lowercasing of `error.lower()`; the keywords searched for are pure
ASCII, so only ASCII case folding is relevant. -/
def lowerChars (l : List Char) : List Char := l.map Char.toLower

/-- Embeds the keyword test of src/main.py line 521:
`'kritiskt' in error.lower() or 'databas' in error.lower()`. -/
def hasCriticalKeyword (e : String) : Bool :=
  isSubCh ("kritiskt".data) (lowerChars e.data) || isSubCh ("databas".data) (lowerChars e.data)

/-- Embeds the exit status of `main` (src/main.py lines 518-524): with no
recorded errors the function falls through and the process exits 0; with
errors it calls `sys.exit(1)` only when some error text matches the keyword
test, otherwise it also falls through to exit status 0. -/
def exitCode (errors : List String) : Nat :=
  if errors.isEmpty then 0
  else if errors.any hasCriticalKeyword then 1
  else 0

/-! Orchestrator stage ordering (src/main.py lines 437-516). -/

/-- Stages of one orchestrator run. -/
inductive Ev where
  | fetch
  | analyze
  | notify
  | persistWeather
  | persistWarnings
  | heartbeat
  deriving DecidableEq, Repr

/-- Embeds the control flow of `main` (src/main.py lines 437-516) as the
sequence of stages executed: fetch then analysis (lines 438-448), then — when
the analyzed table has warning rows — the notification attempt (line 458),
then — when the table is non-empty — the weather write (line 487) followed by
the warnings write (line 488), then the heartbeat (lines 504-514).  A fetch
failure (line 478) empties the table, so only the heartbeat follows. -/
def mainTrace (fetchOk hasRows hasWarnings : Bool) : List Ev :=
  if fetchOk then
    [Ev.fetch, Ev.analyze]
      ++ (if hasWarnings then [Ev.notify] else [])
      ++ (if hasRows then [Ev.persistWeather, Ev.persistWarnings] else [])
      ++ [Ev.heartbeat]
  else
    [Ev.fetch, Ev.heartbeat]

/-- Stage `a` is attempted, stage `b` is attempted, and the first occurrence
of `a` is strictly before the first occurrence of `b`. -/
def Precedes (t : List Ev) (a b : Ev) : Prop :=
  a ∈ t ∧ b ∈ t ∧ t.indexOf a < t.indexOf b

instance (t : List Ev) (a b : Ev) : Decidable (Precedes t a b) :=
  decidable_of_iff (a ∈ t ∧ b ∈ t ∧ t.indexOf a < t.indexOf b) Iff.rfl

/-! SMS composition (src/sms_notifier.py lines 92-161). -/

/-- One warning row as consumed by `create_frost_sms_message`: the valid
time's absolute day number (for the today/tomorrow comparison against `now`)
and its day-of-month / month (for the `%d/%m` rendering), the temperature
(modelled at integer precision, matching the `:.0f` rendering), wind speed
and numeric risk. -/
structure SmsRow where
  vday : ℤ
  vdd : Nat
  vmm : Nat
  temperature_2m : ℤ
  wind_speed_10m : ℚ
  frost_risk_numeric : Nat
  deriving DecidableEq, Repr

/-- `Series.max()` over the numeric risks (0 never occurs on the empty list
here since the caller checks emptiness first). -/
def listMaxN : List Nat → Nat
  | [] => 0
  | x :: xs => xs.foldl max x

/-- `Series.min()` over the integer temperatures. -/
def listMinZ : List ℤ → ℤ
  | [] => 0
  | x :: xs => xs.foldl min x

/-- Two-digit rendering used by `strftime("%d/%m")`. -/
def fmt2 (n : Nat) : String :=
  if n < 10 then "0" ++ toString n else toString n

/-- Risk label by the `max_risk >= 3` / `>= 2` thresholds (src/sms_notifier.py
lines 119-127). -/
def riskTextFor (maxRisk : Nat) : String :=
  if 3 ≤ maxRisk then "HÖG RISK"
  else if 2 ≤ maxRisk then "MEDEL RISK"
  else "LÅG RISK"

/-- Emoji by the same thresholds (src/sms_notifier.py lines 119-127); the
warning and snowflake emoji are two code points each (base + variation
selector), exactly as Python's `len` counts them. -/
def emojiFor (maxRisk : Nat) : String :=
  if 3 ≤ maxRisk then "🚨"
  else if 2 ≤ maxRisk then "⚠️"
  else "❄️"

/-- Action phrase by risk (src/sms_notifier.py lines 146-151). -/
def actionFor (maxRisk : Nat) : String :=
  if 3 ≤ maxRisk then "Täck växter NU!"
  else if 2 ≤ maxRisk then "Förbered skydd!"
  else "Håll koll!"

/-- Wind descriptor from the mean wind speed (src/sms_notifier.py
lines 139-144). -/
def windTextFor (avgWind : ℚ) : String :=
  if avgWind < 2 then "svag vind"
  else if avgWind < 4 then "måttlig vind"
  else "kraftig vind"

/-- Duration phrase (src/sms_notifier.py lines 132-137). -/
def durationTextFor (warningCount : Nat) : String :=
  if warningCount = 1 then "1 timme"
  else if warningCount ≤ 6 then toString warningCount ++ " timmar"
  else "flera timmar"

/-- Relative time phrase from the first warning's timestamp
(src/sms_notifier.py lines 109-117). -/
def timeTextFor (first : SmsRow) (todayDay : ℤ) : String :=
  if first.vday = todayDay then "idag"
  else if first.vday = todayDay + 1 then "imorgon"
  else fmt2 first.vdd ++ "/" ++ fmt2 first.vmm

/-- The primary SMS template (src/sms_notifier.py lines 153-156); `core` is
the time phrase for a single warning and the duration phrase otherwise. -/
def smsPrimary (maxRisk : Nat) (core : String) (minTemp : ℤ) (avgWind : ℚ)
    (location : String) : String :=
  emojiFor maxRisk ++ " FROST " ++ riskTextFor maxRisk ++ " " ++ core ++ ". Temp " ++
    toString minTemp ++ "°C, " ++ windTextFor avgWind ++ ". " ++ actionFor maxRisk ++
    " MVH " ++ location

/-- The shorter fallback template used when the primary message exceeds 160
characters (src/sms_notifier.py lines 158-159). -/
def smsFallback (maxRisk : Nat) (minTemp : ℤ) (location : String) : String :=
  emojiFor maxRisk ++ " FROST " ++ riskTextFor maxRisk ++ ". Temp " ++
    toString minTemp ++ "°C. " ++ actionFor maxRisk ++ " MVH " ++ location

/-- Embeds `create_frost_sms_message` (src/sms_notifier.py lines 92-161).
`todayDay` is the absolute day number of `datetime.now()`.  The Python
literals are reproduced exactly; temperatures are modelled at integer
precision, matching the `:.0f` rendering. -/
def create_frost_sms_message (rows : List SmsRow) (location : String)
    (todayDay : ℤ) : String :=
  match rows with
  | [] => ""
  | first :: _ =>
    let maxRisk := listMaxN (rows.map SmsRow.frost_risk_numeric)
    let warningCount := rows.length
    let minTemp := listMinZ (rows.map SmsRow.temperature_2m)
    let avgWind := (rows.map SmsRow.wind_speed_10m).sum / (warningCount : ℚ)
    let core := if warningCount = 1 then timeTextFor first todayDay
      else durationTextFor warningCount
    let message := smsPrimary maxRisk core minTemp avgWind location
    if 160 < message.length then smsFallback maxRisk minTemp location
    else message

/-! Helper lemmas. -/

lemma isSubCh_nil_pat (l : List Char) : isSubCh [] l = true := by
  cases l with
  | nil => rfl
  | cons c cs => simp [isSubCh, isPrefixCh]

lemma isPrefixCh_append (p : List Char) : ∀ l m : List Char,
    isPrefixCh p l = true → isPrefixCh p (l ++ m) = true := by
  induction p with
  | nil => intro l m _; rfl
  | cons a as ih =>
    intro l m h
    cases l with
    | nil => simp [isPrefixCh] at h
    | cons b bs =>
      simp only [isPrefixCh, Bool.and_eq_true] at h
      simp only [List.cons_append, isPrefixCh, Bool.and_eq_true]
      exact ⟨h.1, ih bs m h.2⟩

lemma isSubCh_append (p : List Char) : ∀ l m : List Char,
    isSubCh p l = true → isSubCh p (l ++ m) = true := by
  intro l
  induction l with
  | nil =>
    intro m h
    cases p with
    | nil => exact isSubCh_nil_pat m
    | cons a as => simp [isSubCh, List.isEmpty] at h
  | cons c cs ih =>
    intro m h
    simp only [isSubCh, Bool.or_eq_true] at h
    rcases h with h | h
    · simp only [List.cons_append, isSubCh, Bool.or_eq_true]
      exact Or.inl (isPrefixCh_append p (c :: cs) m h)
    · simp only [List.cons_append, isSubCh, Bool.or_eq_true]
      exact Or.inr (ih m h)

lemma hasCriticalKeyword_append (s e : String)
    (h : hasCriticalKeyword s = true) : hasCriticalKeyword (s ++ e) = true := by
  have hd : (s ++ e).data = s.data ++ e.data := rfl
  unfold hasCriticalKeyword lowerChars at h ⊢
  rw [hd, List.map_append]
  simp only [Bool.or_eq_true] at h ⊢
  rcases h with h | h
  · exact Or.inl (isSubCh_append _ _ _ h)
  · exact Or.inr (isSubCh_append _ _ _ h)

/-! Claim C1. -/

/-- C1 counterexample: a run that records only a notification error (text
"Notifikationsfel: …", matching neither "kritiskt" nor "databas") exits with
status 0 even though the error list is non-empty, contrary to the claim that
no run recording any error ever exits 0. -/
theorem run_error_exit_zero_ce :
    exitCode [("Notifikationsfel: SMS timeout")] = 0 ∧
    (["Notifikationsfel: SMS timeout"] : List String) ≠ [] := by
  constructor
  · decide
  · simp

/-- C1 amended: the orchestrator exits non-zero exactly when some recorded
error's lowercased text contains "kritiskt" or "databas"; in particular a
database-save failure ("Databas-sparning misslyckades: …") always forces exit
status 1, while other recorded errors (e.g. notification or forecast-fetch
failures) are reported but exit with status 0. -/
theorem exit_nonzero_iff_critical_keyword :
    (∀ errors : List String, exitCode errors ≠ 0 ↔ errors.any hasCriticalKeyword = true) ∧
    (∀ e : String, exitCode [(("Databas-sparning misslyckades: ") ++ e)] = 1) := by
  constructor
  · intro errors
    cases errors with
    | nil => simp [exitCode]
    | cons a l =>
      by_cases hk : (a :: l).any hasCriticalKeyword = true
      · simp [exitCode, hk]
      · rw [Bool.not_eq_true] at hk
        simp [exitCode, hk]
  · intro e
    have h : hasCriticalKeyword (("Databas-sparning misslyckades: ") ++ e) = true :=
      hasCriticalKeyword_append _ e (by decide)
    simp [exitCode, h]

/-! Claim C2. -/

/-- C2: with temperature and wind present, an hour in [8, 17] with positive
temperature yields level "ingen" (none) / numeric 0 via the daytime filter,
regardless of cloud cover and humidity; and any temperature ≤ 0 yields level
"hög" (high) / numeric 3 for every hour, cloud cover and humidity — the
daytime filter never suppresses the freezing rule. -/
theorem daytime_filter_and_freezing_rule (t w : ℚ) (c hu : Option ℚ) :
    (∀ h : ℤ, 8 ≤ h → h ≤ 17 → 0 < t →
      calculate_advanced_frost_risk (some t) (some w) c hu (some h) =
        ⟨"ingen", 0, Branch.daytime⟩) ∧
    (t ≤ 0 → ∀ hod : Option ℤ,
      calculate_advanced_frost_risk (some t) (some w) c hu hod =
        ⟨"hög", 3, Branch.freezing⟩) := by
  constructor
  · intro h h8 h17 ht
    have hd : daytimeHour (some h) = true := by
      simp [daytimeHour]
      exact ⟨h8, h17⟩
    simp [calculate_advanced_frost_risk, hd, ht]
  · intro ht hod
    have hnot : ¬ (0 : ℚ) < t := not_lt.mpr ht
    simp [calculate_advanced_frost_risk, hnot, ht]

/-- C2 witness: evaluated at 5 °C / hour 12 (daytime branch) and at −1 °C /
hour 12 (freezing branch). -/
theorem daytime_filter_and_freezing_rule_witness :
    calculate_advanced_frost_risk (some 5) (some 1) none none (some 12) =
      ⟨"ingen", 0, Branch.daytime⟩ ∧
    calculate_advanced_frost_risk (some (-1)) (some 1) none none (some 12) =
      ⟨"hög", 3, Branch.freezing⟩ :=
  ⟨(daytime_filter_and_freezing_rule 5 1 none none).1 12 (by norm_num) (by norm_num)
      (by norm_num),
   (daytime_filter_and_freezing_rule (-1) 1 none none).2 (by norm_num) (some 12)⟩

/-! Claim C9. -/

/-- C9: the analyzer never raises on missing input: a missing temperature or
wind classifies the observation as "okänd" (unknown) / 0, and a table missing
a required column (`temperature_2m` or `wind_speed_10m`) is returned by the
batch analysis unmodified, with no frost columns added. -/
theorem analyzer_missing_data_safe :
    (∀ (ws c hu : Option ℚ) (hod : Option ℤ),
      calculate_advanced_frost_risk none ws c hu hod =
        ⟨"okänd", 0, Branch.missingData⟩) ∧
    (∀ (tp c hu : Option ℚ) (hod : Option ℤ),
      calculate_advanced_frost_risk tp none c hu hod =
        ⟨"okänd", 0, Branch.missingData⟩) ∧
    (∀ df : WFrame, df.hasTemperature = false ∨ df.hasWind = false →
      analyze_dataframe_advanced df = ⟨df, false, []⟩) := by
  refine ⟨fun ws c hu hod => rfl, fun tp c hu hod => ?_, fun df hdf => ?_⟩
  · cases tp <;> rfl
  · have hcond : ¬ (df.hasTemperature = true ∧ df.hasWind = true) := by
      rcases hdf with h | h <;> simp [h]
    simp [analyze_dataframe_advanced, hcond]

/-- C9 witness: a frame lacking the wind column, with one row, is returned
unmodified. -/
theorem analyzer_missing_data_safe_witness :
    analyze_dataframe_advanced ⟨true, true, false, true, true, [⟨none, some 1, none, none, none⟩]⟩ =
      ⟨⟨true, true, false, true, true, [⟨none, some 1, none, none, none⟩]⟩, false, []⟩ :=
  analyzer_missing_data_safe.2.2 _ (Or.inr rfl)

/-! Claim C10. -/

/-- C10: the cloud impact factor is monotonically non-increasing in cloud
cover, its value always lies in {0.7, 1.0, 1.2, 1.5}, and an absent cloud
cover yields 1.0. -/
theorem cloud_factor_monotone_and_range :
    (∀ c1 c2 : ℚ, c1 ≤ c2 →
      calculate_cloud_impact_factor (some c2) ≤ calculate_cloud_impact_factor (some c1)) ∧
    (∀ oc : Option ℚ,
      calculate_cloud_impact_factor oc = 7/10 ∨ calculate_cloud_impact_factor oc = 1 ∨
      calculate_cloud_impact_factor oc = 6/5 ∨ calculate_cloud_impact_factor oc = 3/2) ∧
    calculate_cloud_impact_factor none = 1 := by
  refine ⟨?_, ?_, rfl⟩
  · intro c1 c2 h
    simp only [calculate_cloud_impact_factor]
    split_ifs <;> linarith
  · intro oc
    cases oc with
    | none => simp [calculate_cloud_impact_factor]
    | some c =>
      simp only [calculate_cloud_impact_factor]
      split_ifs <;> simp

/-- C10 witness: 90 % cloud cover yields a factor no larger than 10 %. -/
theorem cloud_factor_monotone_and_range_witness :
    calculate_cloud_impact_factor (some 90) ≤ calculate_cloud_impact_factor (some 10) :=
  cloud_factor_monotone_and_range.1 10 90 (by norm_num)

/-! Claim C3. -/

/-- C3 counterexample: at temperature 1.5, wind 2, cloud cover 60 (factor 1.0,
temp_limit 1.0, designated risk "medel"/2) and humidity 90, the classifier
returns exactly the designated level/numeric pair — via the humidity rule —
even though temperature > temp_limit, so "returns exactly that risk level and
numeric if and only if temperature ≤ temp_limit and wind_speed < 4" is false. -/
theorem cloud_rule_iff_ce :
    ¬ ((((calculate_advanced_frost_risk (some (3/2)) (some 2) (some 60) (some 90) none).level,
        (calculate_advanced_frost_risk (some (3/2)) (some 2) (some 60) (some 90) none).numeric) =
        ((cloudParams (calculate_cloud_impact_factor (some 60))).2.1,
         (cloudParams (calculate_cloud_impact_factor (some 60))).2.2)) ↔
      ((3/2 : ℚ) ≤ (cloudParams (calculate_cloud_impact_factor (some 60))).1 ∧ (2 : ℚ) < 4)) := by
  have hcf : calculate_cloud_impact_factor (some 60) = 1 := by
    norm_num [calculate_cloud_impact_factor]
  have hp : cloudParams 1 = (1, "medel", 2) := by
    norm_num [cloudParams]
  have hr : calculate_advanced_frost_risk (some (3/2)) (some 2) (some 60) (some 90) none =
      ⟨"medel", 2, Branch.humidityRule⟩ := by
    norm_num [calculate_advanced_frost_risk, daytimeHour, humidityTrigger, hcf, hp]
  rw [hr, hcf, hp]
  norm_num

/-- C3 amended: the cloud factor and threshold tables are as claimed, and on
the non-missing, non-daytime, non-freezing path the classifier takes the
cloud-rule branch — returning exactly the selected risk level and numeric —
if and only if temperature ≤ temp_limit and wind_speed < 4; when that
condition fails the same level/numeric pair may still be returned, but only
through the separate humidity rule. -/
theorem cloud_rule_branch_characterization (t w : ℚ) (c hu : Option ℚ) (hod : Option ℤ)
    (hnd : daytimeHour hod = false) (ht : 0 < t) :
    (∀ x : ℚ, (x ≤ 20 → calculate_cloud_impact_factor (some x) = 3/2) ∧
      (20 < x → x ≤ 50 → calculate_cloud_impact_factor (some x) = 6/5) ∧
      (50 < x → x ≤ 80 → calculate_cloud_impact_factor (some x) = 1) ∧
      (80 < x → calculate_cloud_impact_factor (some x) = 7/10)) ∧
    calculate_cloud_impact_factor none = 1 ∧
    (∀ f : ℚ, (7/5 ≤ f → cloudParams f = (3, "låg", 1)) ∧
      (11/10 ≤ f → f < 7/5 → cloudParams f = (2, "medel", 2)) ∧
      (f < 11/10 → cloudParams f = (1, "medel", 2))) ∧
    ((calculate_advanced_frost_risk (some t) (some w) c hu hod).branch = Branch.cloudRule ↔
      t ≤ (cloudParams (calculate_cloud_impact_factor c)).1 ∧ w < 4) ∧
    (t ≤ (cloudParams (calculate_cloud_impact_factor c)).1 → w < 4 →
      calculate_advanced_frost_risk (some t) (some w) c hu hod =
        ⟨(cloudParams (calculate_cloud_impact_factor c)).2.1,
         (cloudParams (calculate_cloud_impact_factor c)).2.2, Branch.cloudRule⟩) := by
  have hnt : ¬ t ≤ 0 := not_le.mpr ht
  refine ⟨?_, rfl, ?_, ?_, ?_⟩
  · intro x
    refine ⟨fun h1 => ?_, fun h1 h2 => ?_, fun h1 h2 => ?_, fun h1 => ?_⟩ <;>
      (simp only [calculate_cloud_impact_factor]; split_ifs <;> linarith)
  · intro f
    refine ⟨fun h1 => ?_, fun h1 h2 => ?_, fun h1 => ?_⟩ <;>
      (unfold cloudParams; split_ifs <;> first | rfl | linarith)
  · by_cases hc : t ≤ (cloudParams (calculate_cloud_impact_factor c)).1 ∧ w < 4
    · simp [calculate_advanced_frost_risk, hnd, hnt, hc]
    · by_cases hh : humidityTrigger t w hu = true <;>
        simp [calculate_advanced_frost_risk, hnd, hnt, hc, hh]
  · intro h1 h2
    simp [calculate_advanced_frost_risk, hnd, hnt, h1, h2]

/-- C3 witness: at temperature 1, wind 1, cloud cover 10 the clear-sky
threshold applies and the cloud-rule result ("låg"/1) is returned. -/
theorem cloud_rule_branch_characterization_witness :
    calculate_advanced_frost_risk (some 1) (some 1) (some 10) none none =
      ⟨(cloudParams (calculate_cloud_impact_factor (some 10))).2.1,
       (cloudParams (calculate_cloud_impact_factor (some 10))).2.2, Branch.cloudRule⟩ :=
  (cloud_rule_branch_characterization 1 1 (some 10) none none rfl (by norm_num)).2.2.2.2
    (by norm_num [cloudParams, calculate_cloud_impact_factor]) (by norm_num)

/-! Claim C4. -/

/-- C4 counterexample: in a successful run with warning rows, both the
notification and the weather write occur, but the weather write does not
precede the notification — `main` notifies (src/main.py line 458) before it
persists (line 487), contradicting the claimed persistence-before-notification
order. -/
theorem persist_before_notify_ce :
    Ev.notify ∈ mainTrace true true true ∧
    Ev.persistWeather ∈ mainTrace true true true ∧
    ¬ Precedes (mainTrace true true true) Ev.persistWeather Ev.notify := by
  decide

/-- C4 amended: within one successful run the stages are strictly sequential
in the order fetch, analysis, then — when warnings exist — notification, then
— when the table is non-empty — persistence of the forecast rows followed by
the warning rows, then the heartbeat: notification is attempted before
persistence, not after it. -/
theorem run_stage_order (hasRows hasWarnings : Bool) :
    Precedes (mainTrace true hasRows hasWarnings) Ev.fetch Ev.analyze ∧
    (hasWarnings = true →
      Precedes (mainTrace true hasRows hasWarnings) Ev.analyze Ev.notify) ∧
    (hasRows = true →
      Precedes (mainTrace true hasRows hasWarnings) Ev.analyze Ev.persistWeather ∧
      Precedes (mainTrace true hasRows hasWarnings) Ev.persistWeather Ev.persistWarnings ∧
      Precedes (mainTrace true hasRows hasWarnings) Ev.persistWarnings Ev.heartbeat) ∧
    (hasWarnings = true → hasRows = true →
      Precedes (mainTrace true hasRows hasWarnings) Ev.notify Ev.persistWeather) ∧
    Precedes (mainTrace true hasRows hasWarnings) Ev.fetch Ev.heartbeat := by
  cases hasRows <;> cases hasWarnings <;> decide

/-- C4 witness: in the run with warnings and rows, analysis precedes the
notification attempt, which precedes the weather write. -/
theorem run_stage_order_witness :
    Precedes (mainTrace true true true) Ev.analyze Ev.notify ∧
    Precedes (mainTrace true true true) Ev.notify Ev.persistWeather :=
  ⟨(run_stage_order true true).2.1 rfl, (run_stage_order true true).2.2.2.1 rfl rfl⟩

/-! Lemmas about the latest-issue-wins deduplication. -/

lemma issueLe_refl (a : Option ℤ) : issueLe a a = true := by
  cases a <;> simp [issueLe]

lemma issueLe_total (a b : Option ℤ) : issueLe a b = true ∨ issueLe b a = true := by
  cases a with
  | none => exact Or.inl rfl
  | some x =>
    cases b with
    | none => exact Or.inr rfl
    | some y =>
      simp only [issueLe, decide_eq_true_eq]
      omega

lemma issueLe_trans (a b c : Option ℤ) (h1 : issueLe a b = true)
    (h2 : issueLe b c = true) : issueLe a c = true := by
  cases a <;> cases b <;> cases c <;> simp_all [issueLe]
  omega

lemma bestRow_mem : ∀ (rs : List PRow) (r : PRow), bestRow r rs = r ∨ bestRow r rs ∈ rs := by
  intro rs
  induction rs with
  | nil => intro r; exact Or.inl rfl
  | cons s ss ih =>
    intro r
    have hstep : bestRow r (s :: ss) =
        bestRow (if issueLe s.forecast_issue_time r.forecast_issue_time then r else s) ss := rfl
    rw [hstep]
    rcases ih (if issueLe s.forecast_issue_time r.forecast_issue_time then r else s) with h | h
    · rw [h]
      split_ifs
      · exact Or.inl rfl
      · exact Or.inr (List.mem_cons_self s ss)
    · exact Or.inr (List.mem_cons_of_mem s h)

lemma bestRow_ge : ∀ (rs : List PRow) (r : PRow), ∀ s ∈ r :: rs,
    issueLe s.forecast_issue_time (bestRow r rs).forecast_issue_time = true := by
  intro rs
  induction rs with
  | nil =>
    intro r s hs
    rcases List.mem_cons.mp hs with h | h
    · subst h; exact issueLe_refl _
    · exact absurd h (List.not_mem_nil s)
  | cons a ss ih =>
    intro r s hs
    have hstep : bestRow r (a :: ss) =
        bestRow (if issueLe a.forecast_issue_time r.forecast_issue_time then r else a) ss := rfl
    rw [hstep]
    set acc := if issueLe a.forecast_issue_time r.forecast_issue_time then r else a with hacc
    have hr : issueLe r.forecast_issue_time acc.forecast_issue_time = true := by
      rw [hacc]
      split_ifs with h
      · exact issueLe_refl _
      · exact (issueLe_total r.forecast_issue_time a.forecast_issue_time).resolve_right h
    have ha : issueLe a.forecast_issue_time acc.forecast_issue_time = true := by
      rw [hacc]
      split_ifs with h
      · exact h
      · exact issueLe_refl _
    have hbest : issueLe acc.forecast_issue_time (bestRow acc ss).forecast_issue_time = true :=
      ih acc acc (List.mem_cons_self _ _)
    rcases List.mem_cons.mp hs with h | h
    · subst h; exact issueLe_trans _ _ _ hr hbest
    · rcases List.mem_cons.mp h with h2 | h2
      · subst h2; exact issueLe_trans _ _ _ ha hbest
      · exact ih acc s (List.mem_cons_of_mem _ h2)

lemma groupBest_spec (rows : List PRow) (k : ℤ) (r : PRow)
    (h : groupBest rows k = some r) :
    r.valid_time = k ∧ r ∈ rows ∧
      ∀ s ∈ rows, s.valid_time = k →
        issueLe s.forecast_issue_time r.forecast_issue_time = true := by
  unfold groupBest at h
  cases hfl : rows.filter (fun r => decide (r.valid_time = k)) with
  | nil => rw [hfl] at h; cases h
  | cons a as =>
    rw [hfl] at h
    injection h with h
    subst h
    have hmem : bestRow a as ∈ a :: as := by
      rcases bestRow_mem as a with h2 | h2
      · rw [h2]; exact List.mem_cons_self _ _
      · exact List.mem_cons_of_mem _ h2
    have hmem2 : bestRow a as ∈ rows.filter (fun r => decide (r.valid_time = k)) := by
      rw [hfl]; exact hmem
    have hprop := List.mem_filter.mp hmem2
    refine ⟨by simpa using hprop.2, hprop.1, ?_⟩
    intro s hsmem hsvt
    have hsfl : s ∈ a :: as := by
      rw [← hfl]; exact List.mem_filter.mpr ⟨hsmem, by simpa using hsvt⟩
    exact bestRow_ge as a s hsfl

lemma groupBest_isSome (rows : List PRow) (k : ℤ)
    (hk : k ∈ rows.map PRow.valid_time) : ∃ r, groupBest rows k = some r := by
  obtain ⟨r0, hr0, hvt⟩ := List.mem_map.mp hk
  unfold groupBest
  cases hfl : rows.filter (fun r => decide (r.valid_time = k)) with
  | nil =>
    have hr0fl : r0 ∈ rows.filter (fun r => decide (r.valid_time = k)) :=
      List.mem_filter.mpr ⟨hr0, by simpa using hvt⟩
    rw [hfl] at hr0fl
    exact absurd hr0fl (List.not_mem_nil _)
  | cons a as => exact ⟨bestRow a as, rfl⟩

lemma filterMapCongr {α β : Type} (f g : α → Option β) :
    ∀ l : List α, (∀ a ∈ l, f a = g a) → l.filterMap f = l.filterMap g := by
  intro l
  induction l with
  | nil => intro _; rfl
  | cons a as ih =>
    intro h
    rw [List.filterMap_cons, List.filterMap_cons, h a (List.mem_cons_self _ _)]
    cases g a <;> simp [ih (fun x hx => h x (List.mem_cons_of_mem _ hx))]

lemma filterMap_groupBest_count (rows : List PRow) :
    ∀ keys : List ℤ, keys.Nodup → (∀ k ∈ keys, k ∈ rows.map PRow.valid_time) →
    ∀ k : ℤ, ((keys.filterMap (groupBest rows)).filter
        (fun r => decide (r.valid_time = k))).length = if k ∈ keys then 1 else 0 := by
  intro keys
  induction keys with
  | nil => intro _ _ k; simp
  | cons a ks ih =>
    intro hnd hall k
    obtain ⟨r, hr⟩ := groupBest_isSome rows a (hall a (List.mem_cons_self _ _))
    have hra : r.valid_time = a := (groupBest_spec rows a r hr).1
    rw [List.filterMap_cons_some hr]
    have htail := ih (List.Nodup.of_cons hnd)
      (fun k2 hk2 => hall k2 (List.mem_cons_of_mem _ hk2))
    by_cases hak : a = k
    · subst hak
      have hfl : (r :: ks.filterMap (groupBest rows)).filter
          (fun r => decide (r.valid_time = a)) =
          r :: (ks.filterMap (groupBest rows)).filter (fun r => decide (r.valid_time = a)) := by
        simp [List.filter_cons, hra]
      rw [hfl]
      have hnotin : a ∉ ks := (List.nodup_cons.mp hnd).1
      simp [htail a, hnotin]
    · have hfl : (r :: ks.filterMap (groupBest rows)).filter
          (fun r => decide (r.valid_time = k)) =
          (ks.filterMap (groupBest rows)).filter (fun r => decide (r.valid_time = k)) := by
        simp [List.filter_cons, hra, hak]
      rw [hfl, htail k]
      have hiff : (k ∈ a :: ks) ↔ k ∈ ks := by
        constructor
        · intro h
          rcases List.mem_cons.mp h with h | h
          · exact absurd h.symm hak
          · exact h
        · exact fun h => List.mem_cons_of_mem _ h
      rw [if_congr hiff rfl rfl]

lemma dedupLatest_count (rows : List PRow) (k : ℤ)
    (hk : k ∈ rows.map PRow.valid_time) :
    ((dedupLatest rows).filter (fun r => decide (r.valid_time = k))).length = 1 := by
  unfold dedupLatest
  rw [filterMap_groupBest_count rows _ (List.nodup_dedup _)
    (fun k2 hk2 => List.mem_dedup.mp hk2) k]
  rw [if_pos (List.mem_dedup.mpr hk)]

lemma mem_dedupLatest (rows : List PRow) (r : PRow) (h : r ∈ dedupLatest rows) :
    r ∈ rows ∧ ∀ s ∈ rows, s.valid_time = r.valid_time →
      issueLe s.forecast_issue_time r.forecast_issue_time = true := by
  unfold dedupLatest at h
  obtain ⟨k, _, hgb⟩ := List.mem_filterMap.mp h
  have hspec := groupBest_spec rows k r hgb
  refine ⟨hspec.2.1, ?_⟩
  intro s hs hvt
  exact hspec.2.2 s hs (hvt.trans hspec.1)

lemma dedupLatest_eq_self : ∀ l : List PRow, (l.map PRow.valid_time).Nodup →
    dedupLatest l = l := by
  intro l
  induction l with
  | nil => intro _; rfl
  | cons a rest ih =>
    intro hnd
    rw [List.map_cons] at hnd
    have hnd2 := List.nodup_cons.mp hnd
    have hnotin : a.valid_time ∉ rest.map PRow.valid_time := hnd2.1
    have hndrest : (rest.map PRow.valid_time).Nodup := hnd2.2
    unfold dedupLatest
    have hmap : (a :: rest).map PRow.valid_time =
        a.valid_time :: rest.map PRow.valid_time := rfl
    rw [hmap, List.dedup_cons_of_not_mem hnotin, List.dedup_eq_self.mpr hndrest]
    have hgb : groupBest (a :: rest) a.valid_time = some a := by
      unfold groupBest
      have hfl : (a :: rest).filter (fun r => decide (r.valid_time = a.valid_time)) = [a] := by
        have hrest : rest.filter (fun r => decide (r.valid_time = a.valid_time)) = [] := by
          refine List.filter_eq_nil_iff.mpr ?_
          intro s hs
          simp only [decide_eq_true_eq]
          exact fun heq => hnotin (heq ▸ List.mem_map_of_mem _ hs)
        simp [List.filter_cons, hrest]
      rw [hfl]
      rfl
    rw [List.filterMap_cons_some hgb]
    have hcong : ∀ k ∈ rest.map PRow.valid_time,
        groupBest (a :: rest) k = groupBest rest k := by
      intro k hk
      unfold groupBest
      have hfl : (a :: rest).filter (fun r => decide (r.valid_time = k)) =
          rest.filter (fun r => decide (r.valid_time = k)) := by
        have hne : ¬ a.valid_time = k := fun heq => hnotin (heq ▸ hk)
        simp [List.filter_cons, hne]
      rw [hfl]
    rw [filterMapCongr _ _ _ hcong]
    have hih := ih hndrest
    unfold dedupLatest at hih
    rw [List.dedup_eq_self.mpr hndrest] at hih
    rw [hih]

/-! Claim C5. -/

/-- C5: when every row carries a `forecast_issue_time`, the weather upsert
deduplicates by `valid_time` so that exactly one row per valid time survives,
the survivor's issue time is maximal among its valid time's rows, and any row
strictly older than another row for the same valid time is never written. -/
theorem weather_upsert_latest_issue_wins (t : PTable)
    (hIss : t.hasIssue = true)
    (hall : ∀ r ∈ t.rows, r.forecast_issue_time.isSome = true) :
    (∀ k ∈ t.rows.map PRow.valid_time,
      ((load_weather_data t).filter (fun r => decide (r.valid_time = k))).length = 1) ∧
    (∀ r ∈ load_weather_data t, r ∈ t.rows ∧
      ∀ s ∈ t.rows, s.valid_time = r.valid_time →
        issueLe s.forecast_issue_time r.forecast_issue_time = true) ∧
    (∀ s ∈ t.rows, (∃ s2 ∈ t.rows, s2.valid_time = s.valid_time ∧
        issueLe s2.forecast_issue_time s.forecast_issue_time = false) →
      s ∉ load_weather_data t) := by
  have hload : load_weather_data t = dedupLatest t.rows := by
    unfold load_weather_data
    cases ht : t.rows with
    | nil => simp [dedupLatest]
    | cons a rest =>
      have ha : a.forecast_issue_time.isSome = true :=
        hall a (by rw [ht]; exact List.mem_cons_self _ _)
      have hany : (a :: rest).any (fun r => r.forecast_issue_time.isSome) = true := by
        simp [List.any_cons, ha]
      simp [hIss, hany]
  refine ⟨?_, ?_, ?_⟩
  · intro k hk
    rw [hload]
    exact dedupLatest_count t.rows k hk
  · intro r hr
    rw [hload] at hr
    exact mem_dedupLatest t.rows r hr
  · rintro s hs ⟨s2, hs2, hvt, hlt⟩ hmem
    rw [hload] at hmem
    have hle := (mem_dedupLatest t.rows s hmem).2 s2 hs2 hvt
    rw [hle] at hlt
    exact Bool.noConfusion hlt

/-- C5 witness: two rows for valid time 0 with issue times 5 and 9; after the
upsert exactly one row for valid time 0 is written. -/
theorem weather_upsert_latest_issue_wins_witness :
    ((load_weather_data ⟨true, [⟨0, "forecast", some 5, 0, false⟩,
        ⟨0, "forecast", some 9, 0, false⟩]⟩).filter
      (fun r => decide (r.valid_time = 0))).length = 1 :=
  (weather_upsert_latest_issue_wins
    ⟨true, [⟨0, "forecast", some 5, 0, false⟩, ⟨0, "forecast", some 9, 0, false⟩]⟩
    rfl (by decide)).1 0 (by decide)

/-! Claim C7. -/

/-- C7 counterexample: an analyzed table with two warning rows sharing the
same `valid_time` writes only one `frost_warnings` row (the latest-issue-wins
dedup collapses them), so the written count (1) differs from the count of rows
with `frost_risk_numeric > 0` (2). -/
theorem frost_write_count_ce :
    (load_frost_warnings ⟨true, [⟨0, "forecast", some 0, 3, true⟩,
        ⟨0, "forecast", some 1, 3, true⟩]⟩).length = 1 ∧
    (([⟨0, "forecast", some 0, 3, true⟩, ⟨0, "forecast", some 1, 3, true⟩] : List PRow).filter
      (fun r => decide (0 < r.frost_risk_numeric))).length = 2 := by
  exact ⟨by decide, by decide⟩

/-- C7 amended: for an analyzed table whose valid times are pairwise distinct
(as in a single run's forecast), the `frost_warnings` write count equals the
count of rows with `frost_risk_numeric > 0` (with `frost_warning` the derived
`numeric > 0` flag), is 0 when no such row exists, and every written row's
`(valid_time, dataset)` pair also occurs among the rows written to
`weather_hourly`. -/
theorem frost_write_count_and_subset (t : PTable)
    (hnd : (t.rows.map PRow.valid_time).Nodup)
    (hw : ∀ r ∈ t.rows, r.frost_warning = decide (0 < r.frost_risk_numeric)) :
    (load_frost_warnings t).length =
      (t.rows.filter (fun r => decide (0 < r.frost_risk_numeric))).length ∧
    ((t.rows.filter (fun r => decide (0 < r.frost_risk_numeric))).length = 0 →
      (load_frost_warnings t).length = 0) ∧
    (∀ r ∈ load_frost_warnings t,
      (r.valid_time, r.dataset) ∈
        (load_weather_data t).map (fun s => (s.valid_time, s.dataset))) := by
  have hfilter : t.rows.filter (fun r => r.frost_warning) =
      t.rows.filter (fun r => decide (0 < r.frost_risk_numeric)) :=
    List.filter_congr hw
  have hndw : ((t.rows.filter (fun r => r.frost_warning)).map PRow.valid_time).Nodup :=
    List.Sublist.nodup (List.Sublist.map _ (List.filter_sublist _)) hnd
  have hlf : load_frost_warnings t = t.rows.filter (fun r => r.frost_warning) := by
    simp only [load_frost_warnings]
    by_cases he : t.rows.isEmpty
    · have h0 : t.rows = [] := by simpa [List.isEmpty_iff] using he
      simp [he, h0]
    · by_cases hwe : (t.rows.filter (fun r => r.frost_warning)).isEmpty
      · have h0 : t.rows.filter (fun r => r.frost_warning) = [] := by
          simpa [List.isEmpty_iff] using hwe
        simp [he, hwe, h0]
      · cases hIss : t.hasIssue
        · simp [he, hwe, hIss]
        · simp [he, hwe, hIss, dedupLatest_eq_self _ hndw]
  refine ⟨?_, ?_, ?_⟩
  · rw [hlf, hfilter]
  · intro h0
    rw [hlf, hfilter]
    exact h0
  · intro r hr
    rw [hlf] at hr
    have hrrows : r ∈ t.rows := List.mem_of_mem_filter hr
    have hlw : load_weather_data t = t.rows := by
      simp only [load_weather_data]
      by_cases he : t.rows.isEmpty
      · have h0 : t.rows = [] := by simpa [List.isEmpty_iff] using he
        simp [he, h0]
      · by_cases hc : t.hasIssue && t.rows.any (fun r => r.forecast_issue_time.isSome)
        · simp [he, hc, dedupLatest_eq_self _ hnd]
        · simp [he, hc]
    rw [hlw]
    exact List.mem_map.mpr ⟨r, hrrows, rfl⟩

/-- C7 witness: a two-row table (one warning row, one non-warning row) with
distinct valid times writes exactly the one warning row. -/
theorem frost_write_count_and_subset_witness :
    (load_frost_warnings ⟨true, [⟨0, "forecast", some 1, 3, true⟩,
        ⟨1, "forecast", some 1, 0, false⟩]⟩).length =
      (([⟨0, "forecast", some 1, 3, true⟩, ⟨1, "forecast", some 1, 0, false⟩] : List PRow).filter
        (fun r => decide (0 < r.frost_risk_numeric))).length :=
  (frost_write_count_and_subset
    ⟨true, [⟨0, "forecast", some 1, 3, true⟩, ⟨1, "forecast", some 1, 0, false⟩]⟩
    (by decide) (by decide)).1


/-! Length lemmas for the SMS templates. -/

lemma emojiFor_length_le (m : Nat) : (emojiFor m).length ≤ 2 := by
  unfold emojiFor
  split_ifs <;> decide

lemma riskTextFor_length_le (m : Nat) : (riskTextFor m).length ≤ 10 := by
  unfold riskTextFor
  split_ifs <;> decide

lemma actionFor_length_le (m : Nat) : (actionFor m).length ≤ 15 := by
  unfold actionFor
  split_ifs <;> decide

lemma smsFallback_length (m : Nat) (temp : ℤ) (loc : String) :
    (smsFallback m temp loc).length =
      (emojiFor m).length + 7 + (riskTextFor m).length + 7 + (toString temp).length + 4 +
        (actionFor m).length + 5 + loc.length := by
  simp only [smsFallback, String.length_append]
  have h1 : (" FROST ").length = 7 := rfl
  have h2 : (". Temp ").length = 7 := rfl
  have h3 : ("°C. ").length = 4 := rfl
  have h4 : (" MVH ").length = 5 := rfl
  omega

lemma smsPrimary_length (m : Nat) (core : String) (temp : ℤ) (wind : ℚ) (loc : String) :
    (smsPrimary m core temp wind loc).length =
      (emojiFor m).length + 7 + (riskTextFor m).length + 1 + core.length + 7 +
        (toString temp).length + 4 + (windTextFor wind).length + 2 +
        (actionFor m).length + 5 + loc.length := by
  simp only [smsPrimary, String.length_append]
  have h1 : (" FROST ").length = 7 := rfl
  have h2 : ((" ") : String).length = 1 := rfl
  have h3 : (". Temp ").length = 7 := rfl
  have h4 : ("°C, ").length = 4 := rfl
  have h5 : ((". ") : String).length = 2 := rfl
  have h6 : (" MVH ").length = 5 := rfl
  omega

/-! Claim C6. -/

/-- C6 counterexample: for a non-empty warnings table and a 170-character
location string, the composed SMS exceeds 160 characters — the fallback
template still appends the full location, so the bound fails. -/
theorem sms_over_160_ce :
    ([(⟨0, 1, 1, -3, 1, 3⟩ : SmsRow)] ≠ []) ∧
    160 < (create_frost_sms_message [⟨0, 1, 1, -3, 1, 3⟩] ("xxxxxxxxxxxxxxxxxxxxxxxxxxxxxxxxxxxxxxxxxxxxxxxxxxxxxxxxxxxxxxxxxxxxxxxxxxxxxxxxxxxxxxxxxxxxxxxxxxxxxxxxxxxxxxxxxxxxxxxxxxxxxxxxxxxxxxxxxxxxxxxxxxxxxxxxxxxxxxxxxxxxxxxxxx") 5).length := by
  refine ⟨by simp, ?_⟩
  simp only [create_frost_sms_message]
  have hl : (("xxxxxxxxxxxxxxxxxxxxxxxxxxxxxxxxxxxxxxxxxxxxxxxxxxxxxxxxxxxxxxxxxxxxxxxxxxxxxxxxxxxxxxxxxxxxxxxxxxxxxxxxxxxxxxxxxxxxxxxxxxxxxxxxxxxxxxxxxxxxxxxxxxxxxxxxxxxxxxxxxxxxxxxxxx") : String).length = 170 := by decide
  split <;> split
  all_goals
    first
      | (rw [smsFallback_length, hl]; omega)
      | (rw [smsPrimary_length, hl]; omega)

/-- C6 amended: the composed SMS never exceeds 160 characters provided the
rendered minimum temperature and the location name together occupy at most
110 characters (true of any realistic configuration, e.g. the default
location); the fallback template still appends the location, so an oversized
location can push even the fallback past 160. -/
theorem sms_length_bound (rows : List SmsRow) (location : String) (todayDay : ℤ)
    (hne : rows ≠ [])
    (hlen : (toString (listMinZ (rows.map SmsRow.temperature_2m))).length +
      location.length ≤ 110) :
    (create_frost_sms_message rows location todayDay).length ≤ 160 := by
  cases rows with
  | nil => exact absurd rfl hne
  | cons first rest =>
    simp only [create_frost_sms_message]
    split <;> split
    all_goals
      first
        | (rw [smsFallback_length]
           have he := emojiFor_length_le (listMaxN ((first :: rest).map SmsRow.frost_risk_numeric))
           have hrk := riskTextFor_length_le (listMaxN ((first :: rest).map SmsRow.frost_risk_numeric))
           have hac := actionFor_length_le (listMaxN ((first :: rest).map SmsRow.frost_risk_numeric))
           omega)
        | omega

/-- C6 witness: one warning row at −3 °C with the default location stays
within 160 characters. -/
theorem sms_length_bound_witness :
    (create_frost_sms_message [⟨0, 1, 1, -3, 1, 3⟩] ("Din trakt") 5).length ≤ 160 :=
  sms_length_bound [⟨0, 1, 1, -3, 1, 3⟩] ("Din trakt") 5 (by simp) (by decide)

/-! Claim C8. -/

/-- C8: the forecast transformation returns an empty table when the hourly
time array is missing or empty; otherwise it produces one row per timestamp,
with the fixed output column order and with `wind_speed_10m` equal to the
provider value divided by 3.6 (18/5). -/
theorem transform_empty_and_shape (j : ApiJson) (ds : String) (it : Option ℚ)
    (rid : String) :
    ((j.hourly.getD emptyHourly).time = [] →
      transform_hourly_json j ds it rid = ⟨[], []⟩) ∧
    ((j.hourly.getD emptyHourly).time ≠ [] →
      (transform_hourly_json j ds it rid).columns = wantedColumns ∧
      (transform_hourly_json j ds it rid).rows.length =
        (j.hourly.getD emptyHourly).time.length ∧
      ∀ i : Nat, i < (j.hourly.getD emptyHourly).time.length →
        ((transform_hourly_json j ds it rid).rows.getD i dummyTRow).wind_speed_10m =
          (colVal (j.hourly.getD emptyHourly).wind_speed_10m i).map (fun v => v / (18/5))) := by
  constructor
  · intro h
    simp [transform_hourly_json, h]
  · intro h
    have hne : (j.hourly.getD emptyHourly).time.isEmpty = false := by
      cases hh : (j.hourly.getD emptyHourly).time with
      | nil => exact absurd hh h
      | cons a as => rfl
    refine ⟨?_, ?_, ?_⟩
    · simp [transform_hourly_json, hne]
    · simp [transform_hourly_json, hne]
    · intro i hi
      simp [transform_hourly_json, hne, List.getD_eq_getElem?_getD, List.getElem?_map,
        List.getElem?_range, hi]

/-- C8 witness: a payload with one timestamp and wind 7.2 km/h; the stored
row's wind is the provider value divided by 3.6. -/
theorem transform_empty_and_shape_witness :
    ((transform_hourly_json sampleJson ("forecast") none ("r")).rows.getD 0
        dummyTRow).wind_speed_10m =
      (colVal (sampleJson.hourly.getD emptyHourly).wind_speed_10m 0).map
        (fun v => v / (18/5)) :=
  ((transform_empty_and_shape sampleJson ("forecast") none ("r")).2
    (by decide)).2.2 0 (by decide)

end Frostvakt
